import Mathlib

/-!
Verification of the IoT dataspace orchestrator (`app.py`).

The orchestrator is a Flask service that drives a fixed sequence of remote
HTTP calls across three participants (Authority, Consumer, Provider):
onboarding, credential issuance (OIDC4VCI), access grant (OIDC4VP),
contract negotiation and transfer setup, plus a telemetry forwarder.

The embedding below models:
- decoded JSON/Python values as the inductive `Json` (an `obj` stands for a
  decoded Python dict: unique keys in insertion order, as produced by
  `json.loads`);
- Python runtime exceptions as `PyErr` (subscription `KeyError`/`TypeError`/
  `IndexError`, and plain `Exception` raised by the code itself);
- the network as a function `Net` from (method, url, request body) to the
  response body, where `Body.jsonBody j` is a well-formed JSON body decoding
  to `j` and `Body.rawBody t` is a body on which `resp.json()` fails and
  whose text is `t`;
- every remote call issued is recorded in an append-only trace of `CallRec`
  so that theorems can speak about which requests were (not) sent.
Each function of `app.py` is translated one-to-one, keeping its name.
-/

/-- Decoded JSON / Python value. `obj` models a decoded Python dict
(unique keys, insertion order). -/
inductive Json where
  | null : Json
  | bool (b : Bool) : Json
  | num (q : ℚ) : Json
  | str (s : String) : Json
  | arr (xs : List Json) : Json
  | obj (fields : List (String × Json)) : Json
deriving Repr

mutual

def Json.decEq : (a b : Json) → Decidable (a = b)
  | .null, .null => isTrue rfl
  | .null, .bool _ => isFalse fun h => Json.noConfusion h
  | .null, .num _ => isFalse fun h => Json.noConfusion h
  | .null, .str _ => isFalse fun h => Json.noConfusion h
  | .null, .arr _ => isFalse fun h => Json.noConfusion h
  | .null, .obj _ => isFalse fun h => Json.noConfusion h
  | .bool _, .null => isFalse fun h => Json.noConfusion h
  | .bool a, .bool b =>
    match inferInstanceAs (Decidable (a = b)) with
    | isTrue h => isTrue (by rw [h])
    | isFalse h => isFalse fun hh => h (Json.bool.inj hh)
  | .bool _, .num _ => isFalse fun h => Json.noConfusion h
  | .bool _, .str _ => isFalse fun h => Json.noConfusion h
  | .bool _, .arr _ => isFalse fun h => Json.noConfusion h
  | .bool _, .obj _ => isFalse fun h => Json.noConfusion h
  | .num _, .null => isFalse fun h => Json.noConfusion h
  | .num _, .bool _ => isFalse fun h => Json.noConfusion h
  | .num a, .num b =>
    match inferInstanceAs (Decidable (a = b)) with
    | isTrue h => isTrue (by rw [h])
    | isFalse h => isFalse fun hh => h (Json.num.inj hh)
  | .num _, .str _ => isFalse fun h => Json.noConfusion h
  | .num _, .arr _ => isFalse fun h => Json.noConfusion h
  | .num _, .obj _ => isFalse fun h => Json.noConfusion h
  | .str _, .null => isFalse fun h => Json.noConfusion h
  | .str _, .bool _ => isFalse fun h => Json.noConfusion h
  | .str _, .num _ => isFalse fun h => Json.noConfusion h
  | .str a, .str b =>
    match inferInstanceAs (Decidable (a = b)) with
    | isTrue h => isTrue (by rw [h])
    | isFalse h => isFalse fun hh => h (Json.str.inj hh)
  | .str _, .arr _ => isFalse fun h => Json.noConfusion h
  | .str _, .obj _ => isFalse fun h => Json.noConfusion h
  | .arr _, .null => isFalse fun h => Json.noConfusion h
  | .arr _, .bool _ => isFalse fun h => Json.noConfusion h
  | .arr _, .num _ => isFalse fun h => Json.noConfusion h
  | .arr _, .str _ => isFalse fun h => Json.noConfusion h
  | .arr a, .arr b =>
    match Json.decEqList a b with
    | isTrue h => isTrue (by rw [h])
    | isFalse h => isFalse fun hh => h (Json.arr.inj hh)
  | .arr _, .obj _ => isFalse fun h => Json.noConfusion h
  | .obj _, .null => isFalse fun h => Json.noConfusion h
  | .obj _, .bool _ => isFalse fun h => Json.noConfusion h
  | .obj _, .num _ => isFalse fun h => Json.noConfusion h
  | .obj _, .str _ => isFalse fun h => Json.noConfusion h
  | .obj _, .arr _ => isFalse fun h => Json.noConfusion h
  | .obj a, .obj b =>
    match Json.decEqFields a b with
    | isTrue h => isTrue (by rw [h])
    | isFalse h => isFalse fun hh => h (Json.obj.inj hh)

def Json.decEqList : (a b : List Json) → Decidable (a = b)
  | [], [] => isTrue rfl
  | [], _ :: _ => isFalse fun h => List.noConfusion h
  | _ :: _, [] => isFalse fun h => List.noConfusion h
  | x :: xs, y :: ys =>
    match Json.decEq x y with
    | isTrue h1 =>
      match Json.decEqList xs ys with
      | isTrue h2 => isTrue (by rw [h1, h2])
      | isFalse h2 => isFalse fun hh => h2 (List.cons.inj hh).2
    | isFalse h1 => isFalse fun hh => h1 (List.cons.inj hh).1

def Json.decEqFields : (a b : List (String × Json)) → Decidable (a = b)
  | [], [] => isTrue rfl
  | [], _ :: _ => isFalse fun h => List.noConfusion h
  | _ :: _, [] => isFalse fun h => List.noConfusion h
  | (k1, v1) :: xs, (k2, v2) :: ys =>
    match inferInstanceAs (Decidable (k1 = k2)) with
    | isTrue hk =>
      match Json.decEq v1 v2 with
      | isTrue hv =>
        match Json.decEqFields xs ys with
        | isTrue h2 => isTrue (by rw [hk, hv, h2])
        | isFalse h2 => isFalse fun hh => h2 (List.cons.inj hh).2
      | isFalse hv => isFalse fun hh => hv (congrArg Prod.snd (List.cons.inj hh).1)
    | isFalse hk => isFalse fun hh => hk (congrArg Prod.fst (List.cons.inj hh).1)

end

instance : DecidableEq Json := Json.decEq

/-- Python exceptions that the embedded code can raise. -/
inductive PyErr where
  | keyError (key : String) : PyErr
  | typeError (msg : String) : PyErr
  | indexError (msg : String) : PyErr
  | exception (msg : String) : PyErr
deriving DecidableEq, Repr

/-- Python `str(e)` for an exception: `KeyError` renders the repr of its key,
the other exception classes render their message. -/
def PyErr.pyStr : PyErr → String
  | .keyError k => "\u0027" ++ k ++ "\u0027"
  | .typeError m => m
  | .indexError m => m
  | .exception m => m

mutual

/-- Python `repr` of a decoded JSON value (deterministic rendering; used
only when a value is interpolated into a message or URL). -/
def pyRepr : Json → String
  | .null => "None"
  | .bool true => "True"
  | .bool false => "False"
  | .num q => toString q
  | .str s => "\u0027" ++ s ++ "\u0027"
  | .arr xs => "[" ++ pyReprList xs ++ "]"
  | .obj fs => "\x7b" ++ pyReprFields fs ++ "\x7d"

def pyReprList : List Json → String
  | [] => ""
  | [x] => pyRepr x
  | x :: xs => pyRepr x ++ ", " ++ pyReprList xs

def pyReprFields : List (String × Json) → String
  | [] => ""
  | [(k, v)] => "\u0027" ++ k ++ "\u0027" ++ ": " ++ pyRepr v
  | (k, v) :: fs => "\u0027" ++ k ++ "\u0027" ++ ": " ++ pyRepr v ++ ", " ++ pyReprFields fs

end

/-- Python `str()` of a decoded JSON value: a string renders as itself,
anything else as its repr. -/
def pyStr : Json → String
  | .str s => s
  | j => pyRepr j

/-- Python dict lookup on the (unique-keyed, insertion-ordered) field list
of a decoded JSON object: first matching key. -/
def lookupField : List (String × Json) → String → Option Json
  | [], _ => none
  | (k, v) :: rest, key => if k = key then some v else lookupField rest key

/-- Bool-valued `key in dict` test on a decoded object's field list. -/
def hasKey (fields : List (String × Json)) (key : String) : Bool :=
  (lookupField fields key).isSome

/-- Python subscription `x[key]` with a string key: dict lookup (raising
`KeyError` when absent), `TypeError` on every non-dict value. -/
def Json.index : Json → String → Except PyErr Json
  | .obj fields, key =>
    match lookupField fields key with
    | some v => .ok v
    | none => .error (.keyError key)
  | .arr _, _ => .error (.typeError "list indices must be integers or slices, not str")
  | .str _, _ => .error (.typeError "string indices must be integers")
  | _, _ => .error (.typeError "object is not subscriptable")

/-- Python subscription `x[-1]`: last element of a list (`IndexError` when
empty), last character of a string, `KeyError` on a dict, `TypeError`
otherwise. -/
def Json.negOne : Json → Except PyErr Json
  | .arr xs =>
    match xs.getLast? with
    | some x => .ok x
    | none => .error (.indexError "list index out of range")
  | .str s =>
    match s.data.getLast? with
    | some c => .ok (.str (String.mk [c]))
    | none => .error (.indexError "string index out of range")
  | .obj _ => .error (.keyError "-1")
  | _ => .error (.typeError "object is not subscriptable")

/-- Python `str.strip()`: drop leading and trailing whitespace characters
(modelled on the character list, so that it computes by structural
recursion). -/
def pyStrip (s : String) : String :=
  String.mk (((s.data.dropWhile Char.isWhitespace).reverse.dropWhile
    Char.isWhitespace).reverse)

/-- Python truthiness of a decoded JSON value. -/
def truthy : Json → Bool
  | .null => false
  | .bool b => b
  | .num q => decide (q ≠ 0)
  | .str s => !s.isEmpty
  | .arr xs => !xs.isEmpty
  | .obj fs => !fs.isEmpty

/-- HTTP response body as seen by `call`: either well-formed JSON decoding
to a value, or a body text on which `resp.json()` raises. -/
inductive Body where
  | jsonBody (j : Json) : Body
  | rawBody (text : String) : Body

/-- The remote side: maps (method, url, request body) to the response body.
All participants are modelled through one such function. -/
def Net := String → String → Option Json → Body

/-- One recorded outbound HTTP request. -/
structure CallRec where
  method : String
  url : String
  body : Option Json
deriving DecidableEq, Repr

/-- Response-parsing policy of `call` (app.py lines 34-40): the decoded
JSON value when `resp.json()` succeeds, otherwise the raw body text
`resp.text` as a plain string. -/
def parseResponse : Body → Json
  | .jsonBody j => j
  | .rawBody text => .str text

/-- The request wrapper `call` (app.py lines 24-40): issues the request,
records it in the trace, and returns `parseResponse` of the response body.
The `print` logging has no semantic content and is dropped. -/
def call (net : Net) (method url : String) (body : Option Json)
    (t : List CallRec) : Json × List CallRec :=
  (parseResponse (net method url body), t ++ [⟨method, url, body⟩])

def AUTHORITY_URL : String := "http://127.0.0.1:1500"

def CONSUMER_URL : String := "http://127.0.0.1:1100"

def PROVIDER_URL : String := "http://127.0.0.1:1200"

def AUTHORITY_DOCKER : String := "http://host.docker.internal:1500"

def CONSUMER_DOCKER : String := "http://host.docker.internal:1100"

def PROVIDER_DOCKER : String := "http://host.docker.internal:1200"

/-- Phase 1, `auto_onboard` (app.py lines 47-63): three provisioning POSTs
(results discarded), then the three identity documents are fetched and
subscripted with `["id"]` in order; the first failing subscription aborts. -/
def auto_onboard (net : Net) (t : List CallRec) :
    Except PyErr (Json × Json × Json) × List CallRec :=
  let (_, t1) := call net "POST" (AUTHORITY_URL ++ "/api/v1/wallet/onboard") none t
  let (_, t2) := call net "POST" (CONSUMER_URL ++ "/api/v1/wallet/onboard") none t1
  let (_, t3) := call net "POST" (PROVIDER_URL ++ "/api/v1/wallet/onboard") none t2
  let (docA, t4) := call net "GET" (AUTHORITY_URL ++ "/api/v1/wallet/did.json") none t3
  match docA.index "id" with
  | .error e => (.error e, t4)
  | .ok authority_did =>
    let (docC, t5) := call net "GET" (CONSUMER_URL ++ "/api/v1/wallet/did.json") none t4
    match docC.index "id" with
    | .error e => (.error e, t5)
    | .ok consumer_did =>
      let (docP, t6) := call net "GET" (PROVIDER_URL ++ "/api/v1/wallet/did.json") none t5
      match docP.index "id" with
      | .error e => (.error e, t6)
      | .ok provider_did => (.ok (authority_did, consumer_did, provider_did), t6)

/-- Phase 2, `get_credential` (app.py lines 70-96): beg for a credential,
take `[-1]["id"]` of the Authority listing, approve it, take
`[-1]["vc_uri"]` of the Consumer listing, and install the credential. -/
def get_credential (net : Net) (authority_did : Json) (t : List CallRec) :
    Except PyErr Bool × List CallRec :=
  let beg_body := Json.obj [
    ("url", .str (AUTHORITY_DOCKER ++ "/api/v1/gate/access")),
    ("id", authority_did),
    ("slug", .str "rainbow_authority"),
    ("vc_type", .str "DataspaceParticipantCredential")]
  let (_, t1) := call net "POST" (CONSUMER_URL ++ "/api/v1/vc-request/beg/cross-user")
    (some beg_body) t
  let (all_requests, t2) := call net "GET" (AUTHORITY_URL ++ "/api/v1/vc-request/all") none t1
  match all_requests.negOne with
  | .error e => (.error e, t2)
  | .ok lastReq =>
    match lastReq.index "id" with
    | .error e => (.error e, t2)
    | .ok petition_id =>
      let (_, t3) := call net "POST"
        (AUTHORITY_URL ++ "/api/v1/vc-request/" ++ pyStr petition_id)
        (some (.obj [("approve", .bool true)])) t2
      let (consumer_requests, t4) := call net "GET"
        (CONSUMER_URL ++ "/api/v1/vc-request/all") none t3
      match consumer_requests.negOne with
      | .error e => (.error e, t4)
      | .ok lastEntry =>
        match lastEntry.index "vc_uri" with
        | .error e => (.error e, t4)
        | .ok vc_uri =>
          let (_, t5) := call net "POST" (CONSUMER_URL ++ "/api/v1/wallet/oidc4vci")
            (some (.obj [("uri", vc_uri)])) t4
          (.ok true, t5)

/-- Phase 3, `grant_provider_access` (app.py lines 103-124): request the
presentation URI, unwrap `uri.get("uri") or list(uri.values())[0]` when the
response is a dict, apply `str(...).strip()`, and forward the result to the
Consumer's oidc4vp endpoint. -/
def grant_provider_access (net : Net) (provider_did : Json) (t : List CallRec) :
    Except PyErr Bool × List CallRec :=
  let body := Json.obj [
    ("url", .str (PROVIDER_DOCKER ++ "/api/v1/gate/access")),
    ("id", provider_did),
    ("slug", .str "rainbow_provider"),
    ("actions", .str "talk")]
  let (resp, t1) := call net "POST" (CONSUMER_URL ++ "/api/v1/onboard/provider")
    (some body) t
  let picked : Except PyErr Json :=
    match resp with
    | .obj fields =>
      let got := match lookupField fields "uri" with
        | some v => v
        | none => Json.null
      if truthy got then .ok got
      else
        match fields with
        | [] => .error (.indexError "list index out of range")
        | kv :: _ => .ok kv.2
    | _ => .ok resp
  match picked with
  | .error e => (.error e, t1)
  | .ok u =>
    let uri := pyStrip (pyStr u)
    let (_, t2) := call net "POST" (CONSUMER_URL ++ "/api/v1/wallet/oidc4vp")
      (some (.obj [("uri", .str uri)])) t1
    (.ok true, t2)

/-- Candidate identifier keys of `extract_id` (app.py line 136), in
priority order. -/
def candidates : List String := ["id", "@id", "processId", "contractId"]

/-- The identifier extractor `extract_id` (app.py lines 131-141): raises on
a non-dict response, returns the value under the first present candidate
key, and raises when no candidate key is present. -/
def extract_id (resp : Json) : Except PyErr Json :=
  match resp with
  | .obj fields =>
    match candidates.findSome? (fun key => lookupField fields key) with
    | some v => .ok v
    | none =>
      let rendered := pyStr resp
      .error (.exception ("No ID field found in response: " ++ rendered))
  | _ =>
    let rendered := pyStr resp
    .error (.exception ("Response is not JSON: " ++ rendered))

/-- Phase 4, `negotiate_contract` (app.py lines 144-160): open the
negotiation and extract the process id from the response. -/
def negotiate_contract (net : Net) (provider_did : Json) (t : List CallRec) :
    Except PyErr Json × List CallRec :=
  let body := Json.obj [
    ("providerId", provider_did),
    ("offer", .obj [
      ("id", .str "offer-001"),
      ("permissions", .arr [.str "SEND_DATA"])])]
  let (resp, t1) := call net "POST"
    (CONSUMER_URL ++ "/api/v1/contract-negotiation/processes") (some body) t
  match extract_id resp with
  | .error e => (.error e, t1)
  | .ok process_id => (.ok process_id, t1)

/-- Phase 5, `create_transfer` (app.py lines 167-181): open the transfer
process and extract the transfer id from the response. -/
def create_transfer (net : Net) (provider_did : Json) (t : List CallRec) :
    Except PyErr Json × List CallRec :=
  let body := Json.obj [
    ("providerId", provider_did),
    ("assetId", .str "iot-stream-001"),
    ("protocol", .str "dataspace-protocol")]
  let (resp, t1) := call net "POST"
    (CONSUMER_URL ++ "/api/v1/transfers/rpc/setup-request") (some body) t
  match extract_id resp with
  | .error e => (.error e, t1)
  | .ok transfer_id => (.ok transfer_id, t1)

/-- Phase 6, `send_telemetry` (app.py lines 188-195): forward the
measurement to the Provider's transfer-message endpoint and return the
parsed response. -/
def send_telemetry (net : Net) (transfer_id data0 : Json) (t : List CallRec) :
    Except PyErr Json × List CallRec :=
  let body := Json.obj [("measurement", data0)]
  let (resp, t1) := call net "POST"
    (PROVIDER_URL ++ "/api/v1/transfers/" ++ pyStr transfer_id ++ "/messages")
    (some body) t
  (.ok resp, t1)

/-- Body of the `try` block of the `/init` handler `init_all` (app.py
lines 204-219): the five phases run strictly in sequence, each feeding the
next, and the first error aborts the rest. -/
def init_run (net : Net) : Except PyErr Json × List CallRec :=
  match auto_onboard net [] with
  | (.error e, t) => (.error e, t)
  | (.ok (authority_did, consumer_did, provider_did), t1) =>
    match get_credential net authority_did t1 with
    | (.error e, t) => (.error e, t)
    | (.ok _, t2) =>
      match grant_provider_access net provider_did t2 with
      | (.error e, t) => (.error e, t)
      | (.ok _, t3) =>
        match negotiate_contract net provider_did t3 with
        | (.error e, t) => (.error e, t)
        | (.ok contract_id, t4) =>
          match create_transfer net provider_did t4 with
          | (.error e, t) => (.error e, t)
          | (.ok transfer_id, t5) =>
            (.ok (.obj [
              ("authority_did", authority_did),
              ("consumer_did", consumer_did),
              ("provider_did", provider_did),
              ("contract_id", contract_id),
              ("transfer_id", transfer_id)]), t5)

/-- The `/init` handler `init_all` (app.py lines 202-222): on success the
jsonified record with Flask's default status 200; on any exception the
record with key "error" holding `str(e)` and status 500. -/
def init_all (net : Net) : Json × Nat :=
  match init_run net with
  | (.ok record, _) => (record, 200)
  | (.error e, _) => (.obj [("error", .str (PyErr.pyStr e))], 500)

/-- The `/telemetry` handler (app.py lines 225-232): subscripts the request
body with `["transfer_id"]` and `["data"]` (an uncaught `KeyError` when
absent, before any remote call), then forwards via `send_telemetry` and
returns the Provider's response. -/
def telemetry (net : Net) (req : Json) : Except PyErr Json × List CallRec :=
  match req.index "transfer_id" with
  | .error e => (.error e, [])
  | .ok transfer_id =>
    match req.index "data" with
    | .error e => (.error e, [])
    | .ok measurement => send_telemetry net transfer_id measurement []

/-- The `/health` handler (app.py lines 235-237). -/
def health : Json × Nat := (.obj [("status", .str "ok")], 200)

/-! ### Mock networks used to settle the claims -/

/-- The section-8 mocked remote side: fixed responses for the identity
documents, the two credential listings, the access grant, the negotiation
and the transfer; every other endpoint answers an empty JSON object. -/
def mockC1Net : Net := fun _ url _ =>
  if url = AUTHORITY_URL ++ "/api/v1/wallet/did.json" then
    .jsonBody (.obj [("id", .str "did:example:auth")])
  else if url = CONSUMER_URL ++ "/api/v1/wallet/did.json" then
    .jsonBody (.obj [("id", .str "did:example:consumer")])
  else if url = PROVIDER_URL ++ "/api/v1/wallet/did.json" then
    .jsonBody (.obj [("id", .str "did:example:provider")])
  else if url = AUTHORITY_URL ++ "/api/v1/vc-request/all" then
    .jsonBody (.arr [.obj [("id", .str "req-1")]])
  else if url = CONSUMER_URL ++ "/api/v1/vc-request/all" then
    .jsonBody (.arr [.obj [("id", .str "req-1"), ("vc_uri", .str "vc://xyz")]])
  else if url = CONSUMER_URL ++ "/api/v1/onboard/provider" then
    .jsonBody (.str "pres://abc")
  else if url = CONSUMER_URL ++ "/api/v1/contract-negotiation/processes" then
    .jsonBody (.obj [("id", .str "neg-1")])
  else if url = CONSUMER_URL ++ "/api/v1/transfers/rpc/setup-request" then
    .jsonBody (.obj [("id", .str "xfer-1")])
  else .jsonBody (.obj [])

/-- A remote side on which every identifier produced is the empty string:
identity documents and the negotiation/transfer responses all carry
`"id": ""`; the credential listings and the access grant succeed. -/
def emptyIdNet : Net := fun _ url _ =>
  if url = AUTHORITY_URL ++ "/api/v1/wallet/did.json" then
    .jsonBody (.obj [("id", .str "")])
  else if url = CONSUMER_URL ++ "/api/v1/wallet/did.json" then
    .jsonBody (.obj [("id", .str "")])
  else if url = PROVIDER_URL ++ "/api/v1/wallet/did.json" then
    .jsonBody (.obj [("id", .str "")])
  else if url = AUTHORITY_URL ++ "/api/v1/vc-request/all" then
    .jsonBody (.arr [.obj [("id", .str "req-0")]])
  else if url = CONSUMER_URL ++ "/api/v1/vc-request/all" then
    .jsonBody (.arr [.obj [("id", .str "req-0"), ("vc_uri", .str "vc://u")]])
  else if url = CONSUMER_URL ++ "/api/v1/onboard/provider" then
    .jsonBody (.str "pres://p")
  else if url = CONSUMER_URL ++ "/api/v1/contract-negotiation/processes" then
    .jsonBody (.obj [("id", .str "")])
  else if url = CONSUMER_URL ++ "/api/v1/transfers/rpc/setup-request" then
    .jsonBody (.obj [("id", .str "")])
  else .jsonBody (.obj [])

/-- A remote side answering every request with a JSON object that has no
candidate identifier key. -/
def noIdNet : Net := fun _ _ _ => .jsonBody (.obj [("foo", .str "bar")])

/-- A remote side answering every request with an empty JSON object. -/
def defaultNet : Net := fun _ _ _ => .jsonBody (.obj [])

/-- A remote side answering every request with a non-JSON body. -/
def rawNet : Net := fun _ _ _ => .rawBody "boom"

/-- A remote side answering the Consumer listing with an ordered sequence
whose earlier entry carries `vc_uri` but whose last entry does not. -/
def c4LastMissingNet : Net := fun _ url _ =>
  if url = AUTHORITY_URL ++ "/api/v1/vc-request/all" then
    .jsonBody (.arr [.obj [("id", .str "req-1")]])
  else if url = CONSUMER_URL ++ "/api/v1/vc-request/all" then
    .jsonBody (.arr [
      .obj [("id", .str "req-1"), ("vc_uri", .str "vc://xyz")],
      .obj [("id", .str "req-2")]])
  else .jsonBody (.obj [])

/-- A remote side answering the Consumer listing with two entries that both
carry `vc_uri`; position and presence-filtering disagree on nothing here,
but the forwarded URI shows which entry was taken. -/
def c4LastHasUriNet : Net := fun _ url _ =>
  if url = AUTHORITY_URL ++ "/api/v1/vc-request/all" then
    .jsonBody (.arr [.obj [("id", .str "req-1")]])
  else if url = CONSUMER_URL ++ "/api/v1/vc-request/all" then
    .jsonBody (.arr [
      .obj [("id", .str "req-1"), ("vc_uri", .str "vc://old")],
      .obj [("id", .str "req-2"), ("vc_uri", .str "vc://new")]])
  else .jsonBody (.obj [])

/-- A remote side whose access-grant endpoint answers with the given body
and every other endpoint with an empty JSON object. -/
def grantRespNet (b : Body) : Net := fun _ url _ =>
  if url = CONSUMER_URL ++ "/api/v1/onboard/provider" then b
  else .jsonBody (.obj [])

/-- A remote side whose telemetry forward endpoint acknowledges with a
fixed JSON object. -/
def ackNet : Net := fun _ _ _ => .jsonBody (.obj [("status", .str "accepted")])

/-! ### Claim theorems -/

/-- C1, counterexample: under the section-8 mocked responses, the `/init`
handler does not return the record with keys `contract_process` and
`transfer_process` that the claim states. -/
theorem c1_counterexample : init_all mockC1Net ≠ (.obj [
    ("authority_did", .str "did:example:auth"),
    ("consumer_did", .str "did:example:consumer"),
    ("provider_did", .str "did:example:provider"),
    ("contract_process", .str "neg-1"),
    ("transfer_process", .str "xfer-1")], 200) := by decide

/-- C1, amended: under the section-8 mocked responses (onboarding identity
documents with ids did:example:auth / did:example:consumer /
did:example:provider, credential listings [{id: req-1}] then
[{id: req-1, vc_uri: vc://xyz}], access grant "pres://abc", negotiation
{id: neg-1}, transfer {id: xfer-1}), the `/init` handler returns status 200
and exactly the record with keys `authority_did`, `consumer_did`,
`provider_did`, `contract_id`, `transfer_id` carrying those values. -/
theorem c1_end_to_end_mocked_run : init_all mockC1Net = (.obj [
    ("authority_did", .str "did:example:auth"),
    ("consumer_did", .str "did:example:consumer"),
    ("provider_did", .str "did:example:provider"),
    ("contract_id", .str "neg-1"),
    ("transfer_id", .str "xfer-1")], 200) := rfl

/-- C5: on an access-grant response that normalizes to the empty URI (an
empty, non-JSON response body), the Access-Grant phase does not raise: it
forwards the empty URI to the Consumer's oidc4vp presentation endpoint and
reports success — the failure the claim requires does not happen. -/
theorem c5_empty_uri_forwarded :
    (grant_provider_access (grantRespNet (.rawBody "")) (.str "did:example:provider") []).1
      = .ok true ∧
    (grant_provider_access (grantRespNet (.rawBody "")) (.str "did:example:provider") []).2.getLast?
      = some ⟨"POST", CONSUMER_URL ++ "/api/v1/wallet/oidc4vp",
          some (.obj [("uri", .str "")])⟩ := ⟨rfl, rfl⟩

/-- C6: a presentation response given as the bare string "abc123", the same
value wrapped as an object under the key "uri", and a whitespace-padded
bare variant all normalize to the identical trimmed string "abc123" in the
body forwarded to the Consumer's oidc4vp presentation endpoint. -/
theorem c6_uri_normalization :
    (grant_provider_access (grantRespNet (.jsonBody (.str "abc123")))
        (.str "did:example:provider") []).2.getLast?
      = some ⟨"POST", CONSUMER_URL ++ "/api/v1/wallet/oidc4vp",
          some (.obj [("uri", .str "abc123")])⟩ ∧
    (grant_provider_access (grantRespNet (.jsonBody (.obj [("uri", .str "abc123")])))
        (.str "did:example:provider") []).2.getLast?
      = some ⟨"POST", CONSUMER_URL ++ "/api/v1/wallet/oidc4vp",
          some (.obj [("uri", .str "abc123")])⟩ ∧
    (grant_provider_access (grantRespNet (.jsonBody (.str "  abc123  ")))
        (.str "did:example:provider") []).2.getLast?
      = some ⟨"POST", CONSUMER_URL ++ "/api/v1/wallet/oidc4vp",
          some (.obj [("uri", .str "abc123")])⟩ := ⟨rfl, rfl, rfl⟩

/-- C7: on a non-JSON response body the call wrapper returns the raw body
text as a plain string — a value indistinguishable from the decoding of a
well-formed JSON string body, not an opaque sentinel distinct from every
JSON value as the claim states. -/
theorem c7_raw_body_is_plain_string :
    parseResponse (.rawBody "not json") = Json.str "not json" ∧
    parseResponse (.rawBody "not json") = parseResponse (.jsonBody (.str "not json")) ∧
    parseResponse (.rawBody "") = parseResponse (.jsonBody (.str "")) :=
  ⟨rfl, rfl, rfl⟩

/-- C9, counterexample: the `/telemetry` handler applied to the body
with only the key "temperature" raises an uncaught KeyError on
"transfer_id" before issuing any remote call; it returns no payload echo
and no received_at timestamp. -/
theorem c9_counterexample :
    telemetry defaultNet (.obj [("temperature", .num 21.5)]) =
      (.error (.keyError "transfer_id"), []) := rfl

/-- C9, amended: for every request body (a JSON object) lacking the key
"transfer_id", the `/telemetry` handler raises an uncaught KeyError on
"transfer_id" before issuing any remote call; no payload echo and no
received_at timestamp are produced. -/
theorem c9_amended_keyerror_not_echo (net : Net) (fields : List (String × Json))
    (h : lookupField fields "transfer_id" = none) :
    telemetry net (.obj fields) = (.error (.keyError "transfer_id"), []) := by
  simp [telemetry, Json.index, h]

/-- C9, witness: instance of the amended claim at a concrete body. -/
theorem c9_witness :
    telemetry defaultNet (.obj [("payload", Json.null)]) =
      (.error (.keyError "transfer_id"), []) :=
  c9_amended_keyerror_not_echo defaultNet [("payload", Json.null)] rfl

/-- C10: a `/telemetry` body lacking "transfer_id" (or having it but
lacking "data") raises an uncaught KeyError with no remote call issued;
when both keys are present the handler forwards the measurement wrapped as
an object under "measurement" to the Provider's transfer-message endpoint
for that transfer id, and returns the Provider's parsed response
unchanged. -/
theorem c10_telemetry_forwarding (net : Net) (fields : List (String × Json)) :
    (lookupField fields "transfer_id" = none →
      telemetry net (.obj fields) = (.error (.keyError "transfer_id"), [])) ∧
    (∀ tid, lookupField fields "transfer_id" = some tid →
      lookupField fields "data" = none →
      telemetry net (.obj fields) = (.error (.keyError "data"), [])) ∧
    (∀ tid d, lookupField fields "transfer_id" = some tid →
      lookupField fields "data" = some d →
      telemetry net (.obj fields) =
        (.ok (parseResponse (net "POST"
            (PROVIDER_URL ++ "/api/v1/transfers/" ++ pyStr tid ++ "/messages")
            (some (.obj [("measurement", d)])))),
         [⟨"POST", PROVIDER_URL ++ "/api/v1/transfers/" ++ pyStr tid ++ "/messages",
            some (.obj [("measurement", d)])⟩])) := by
  refine ⟨fun h => ?_, fun tid h1 h2 => ?_, fun tid d h1 h2 => ?_⟩
  · simp [telemetry, Json.index, h]
  · simp [telemetry, Json.index, h1, h2]
  · simp [telemetry, Json.index, h1, h2, send_telemetry, call]

/-- C10, witness: instance of the forwarding branch at a concrete body and
remote side. -/
theorem c10_witness :
    telemetry ackNet (.obj [("transfer_id", .str "xfer-1"),
        ("data", .obj [("temperature", .num 21.5)])]) =
      (.ok (.obj [("status", .str "accepted")]),
       [⟨"POST", PROVIDER_URL ++ "/api/v1/transfers/" ++ pyStr (.str "xfer-1") ++ "/messages",
          some (.obj [("measurement", .obj [("temperature", .num 21.5)])])⟩]) :=
  (c10_telemetry_forwarding ackNet
      [("transfer_id", .str "xfer-1"), ("data", .obj [("temperature", .num 21.5)])]).2.2
    (.str "xfer-1") (.obj [("temperature", .num 21.5)]) rfl rfl

/-- C3: a negotiation response that is a JSON object containing none of the
candidate keys "id", "@id", "processId", "contractId" makes `extract_id`
raise the explicit no-identifier error (never returning a value, empty or
otherwise), and makes the Negotiation phase raise that same error rather
than produce a process id. -/
theorem c3_missing_identifier_raises (net : Net) (provider_did : Json)
    (fields : List (String × Json)) (t : List CallRec)
    (hid : lookupField fields "id" = none)
    (hatid : lookupField fields "@id" = none)
    (hpid : lookupField fields "processId" = none)
    (hcid : lookupField fields "contractId" = none)
    (hresp : net "POST" (CONSUMER_URL ++ "/api/v1/contract-negotiation/processes")
        (some (.obj [("providerId", provider_did),
          ("offer", .obj [("id", .str "offer-001"),
            ("permissions", .arr [.str "SEND_DATA"])])]))
      = .jsonBody (.obj fields)) :
    extract_id (.obj fields) =
      .error (.exception ("No ID field found in response: " ++ pyStr (.obj fields))) ∧
    (negotiate_contract net provider_did t).1 =
      .error (.exception ("No ID field found in response: " ++ pyStr (.obj fields))) ∧
    ∀ v, (negotiate_contract net provider_did t).1 ≠ .ok v := by
  have h1 : extract_id (.obj fields) =
      .error (.exception ("No ID field found in response: " ++ pyStr (.obj fields))) := by
    simp [extract_id, candidates, List.findSome?, hid, hatid, hpid, hcid]
  have h2 : (negotiate_contract net provider_did t).1 =
      .error (.exception ("No ID field found in response: " ++ pyStr (.obj fields))) := by
    simp [negotiate_contract, call, parseResponse, hresp, h1]
  exact ⟨h1, h2, fun v hv => by rw [h2] at hv; exact Except.noConfusion hv⟩

/-- C3, witness: instance at a response object with a single unrelated
key. -/
theorem c3_witness :
    extract_id (.obj [("foo", .str "bar")]) =
      .error (.exception ("No ID field found in response: " ++
        pyStr (.obj [("foo", .str "bar")]))) ∧
    (negotiate_contract noIdNet (.str "did:example:provider") []).1 =
      .error (.exception ("No ID field found in response: " ++
        pyStr (.obj [("foo", .str "bar")]))) :=
  ⟨(c3_missing_identifier_raises noIdNet (.str "did:example:provider")
      [("foo", .str "bar")] [] rfl rfl rfl rfl rfl).1,
   (c3_missing_identifier_raises noIdNet (.str "did:example:provider")
      [("foo", .str "bar")] [] rfl rfl rfl rfl rfl).2.1⟩

/-- C2, counterexample: on a remote side whose every identifier value is
the empty string, the run does not fail: the `/init` handler completes with
status 200 and threads the empty identifiers through every phase into the
final record. -/
theorem c2_counterexample : init_all emptyIdNet = (.obj [
    ("authority_did", .str ""), ("consumer_did", .str ""), ("provider_did", .str ""),
    ("contract_id", .str ""), ("transfer_id", .str "")], 200) := rfl

/-- C2, amended: identifiers are threaded verbatim from a phase's response
into the next phase: a phase raises only when the identifier key is absent;
whatever value sits under the key — the empty string included — is
accepted and passed on rather than failing the run. -/
theorem c2_amended_ids_threaded_verbatim (net : Net) (a c p n x : Json)
    (ha : net "GET" (AUTHORITY_URL ++ "/api/v1/wallet/did.json") none
      = .jsonBody (.obj [("id", a)]))
    (hc : net "GET" (CONSUMER_URL ++ "/api/v1/wallet/did.json") none
      = .jsonBody (.obj [("id", c)]))
    (hp : net "GET" (PROVIDER_URL ++ "/api/v1/wallet/did.json") none
      = .jsonBody (.obj [("id", p)]))
    (hn : net "POST" (CONSUMER_URL ++ "/api/v1/contract-negotiation/processes")
        (some (.obj [("providerId", p), ("offer", .obj [("id", .str "offer-001"),
          ("permissions", .arr [.str "SEND_DATA"])])]))
      = .jsonBody (.obj [("id", n)]))
    (hx : net "POST" (CONSUMER_URL ++ "/api/v1/transfers/rpc/setup-request")
        (some (.obj [("providerId", p), ("assetId", .str "iot-stream-001"),
          ("protocol", .str "dataspace-protocol")]))
      = .jsonBody (.obj [("id", x)])) :
    (auto_onboard net []).1 = .ok (a, c, p) ∧
    ∀ t, (negotiate_contract net p t).1 = .ok n ∧ (create_transfer net p t).1 = .ok x := by
  refine ⟨?_, fun t => ⟨?_, ?_⟩⟩
  · simp [auto_onboard, call, parseResponse, ha, hc, hp, Json.index, lookupField]
  · simp [negotiate_contract, call, parseResponse, hn, extract_id, candidates,
      List.findSome?, lookupField]
  · simp [create_transfer, call, parseResponse, hx, extract_id, candidates,
      List.findSome?, lookupField]

/-- C2, witness: instance of the amended claim on the all-empty-identifier
remote side: every phase accepts and returns the empty identifier. -/
theorem c2_witness :
    (auto_onboard emptyIdNet []).1 = .ok (.str "", .str "", .str "") ∧
    (negotiate_contract emptyIdNet (.str "") []).1 = .ok (.str "") ∧
    (create_transfer emptyIdNet (.str "") []).1 = .ok (.str "") := by
  have h := c2_amended_ids_threaded_verbatim emptyIdNet (.str "") (.str "") (.str "")
    (.str "") (.str "") rfl rfl rfl rfl rfl
  exact ⟨h.1, (h.2 []).1, (h.2 []).2⟩

/-- C4, counterexample: when the Consumer listing's most recent entry that
carries an issuance URI is not at the last position (the last entry lacks
`vc_uri`), the Credential phase does not select it: it raises a KeyError on
"vc_uri" taken from the last-position entry. -/
theorem c4_counterexample :
    (get_credential c4LastMissingNet (.str "did:example:auth") []).1
      = .error (.keyError "vc_uri") := rfl

/-- C4, amended: step 4 of the Credential phase takes the entry at the last
position of the Consumer listing and reads its `vc_uri` field — no
filtering on the presence of that field — forwarding that entry's URI to
the Consumer's oidc4vci endpoint. -/
theorem c4_amended_last_position_vc_uri (net : Net) (authority_did : Json)
    (xs ys : List Json) (lastA lastC pid u : Json) (t : List CallRec)
    (hA : net "GET" (AUTHORITY_URL ++ "/api/v1/vc-request/all") none
      = .jsonBody (.arr xs))
    (hlastA : xs.getLast? = some lastA)
    (hpid : lastA.index "id" = .ok pid)
    (hC : net "GET" (CONSUMER_URL ++ "/api/v1/vc-request/all") none
      = .jsonBody (.arr ys))
    (hlastC : ys.getLast? = some lastC)
    (hu : lastC.index "vc_uri" = .ok u) :
    (get_credential net authority_did t).1 = .ok true ∧
    (get_credential net authority_did t).2.getLast? =
      some ⟨"POST", CONSUMER_URL ++ "/api/v1/wallet/oidc4vci",
        some (.obj [("uri", u)])⟩ := by
  constructor
  · simp [get_credential, call, parseResponse, hA, hC, Json.negOne, hlastA, hlastC,
      hpid, hu]
  · simp [get_credential, call, parseResponse, hA, hC, Json.negOne, hlastA, hlastC,
      hpid, hu]

/-- C4, witness: instance of the amended claim on a listing whose last
entry carries `vc_uri` "vc://new" while an earlier entry carries
"vc://old": the last-position URI is the one forwarded. -/
theorem c4_witness :
    (get_credential c4LastHasUriNet (.str "did:example:auth") []).1 = .ok true ∧
    (get_credential c4LastHasUriNet (.str "did:example:auth") []).2.getLast? =
      some ⟨"POST", CONSUMER_URL ++ "/api/v1/wallet/oidc4vci",
        some (.obj [("uri", .str "vc://new")])⟩ :=
  c4_amended_last_position_vc_uri c4LastHasUriNet (.str "did:example:auth")
    [.obj [("id", .str "req-1")]]
    [.obj [("id", .str "req-1"), ("vc_uri", .str "vc://old")],
     .obj [("id", .str "req-2"), ("vc_uri", .str "vc://new")]]
    (.obj [("id", .str "req-1")])
    (.obj [("id", .str "req-2"), ("vc_uri", .str "vc://new")])
    (.str "req-1") (.str "vc://new") []
    rfl rfl rfl rfl rfl rfl

/-- Helper: a successful `/init` run always carries the complete five-field
record — there is no partial-success result. -/
theorem init_run_ok_shape (net : Net) (r : Json) (t : List CallRec)
    (h : init_run net = (.ok r, t)) :
    ∃ a c p n x, r = .obj [("authority_did", a), ("consumer_did", c),
      ("provider_did", p), ("contract_id", n), ("transfer_id", x)] := by
  unfold init_run at h
  repeat' split at h
  all_goals simp_all
  exact ⟨_, _, _, _, _, h.1.symm⟩

/-- C8: every phase error aborts the `/init` run immediately — the run's
result and trace are exactly those of the failing phase, with no further
phase executed and no retry — and the handler catches the error, returning
the record with key "error" carrying the originating message `str(e)` with
status 500 (non-2xx), while a successful run returns the complete
five-field record with status 200. -/
theorem c8_error_propagation (net : Net) :
    (∀ e t, init_run net = (.error e, t) →
      init_all net = (.obj [("error", .str (PyErr.pyStr e))], 500)) ∧
    (∀ r t, init_run net = (.ok r, t) → init_all net = (r, 200)) ∧
    (∀ r t, init_run net = (.ok r, t) →
      ∃ a c p n x, r = .obj [("authority_did", a), ("consumer_did", c),
        ("provider_did", p), ("contract_id", n), ("transfer_id", x)]) ∧
    (∀ e t, auto_onboard net [] = (.error e, t) → init_run net = (.error e, t)) ∧
    (∀ a c p t1 e t, auto_onboard net [] = (.ok (a, c, p), t1) →
      get_credential net a t1 = (.error e, t) → init_run net = (.error e, t)) ∧
    (∀ a c p t1 b1 t2 e t, auto_onboard net [] = (.ok (a, c, p), t1) →
      get_credential net a t1 = (.ok b1, t2) →
      grant_provider_access net p t2 = (.error e, t) →
      init_run net = (.error e, t)) ∧
    (∀ a c p t1 b1 t2 b2 t3 e t, auto_onboard net [] = (.ok (a, c, p), t1) →
      get_credential net a t1 = (.ok b1, t2) →
      grant_provider_access net p t2 = (.ok b2, t3) →
      negotiate_contract net p t3 = (.error e, t) →
      init_run net = (.error e, t)) ∧
    (∀ a c p t1 b1 t2 b2 t3 n t4 e t, auto_onboard net [] = (.ok (a, c, p), t1) →
      get_credential net a t1 = (.ok b1, t2) →
      grant_provider_access net p t2 = (.ok b2, t3) →
      negotiate_contract net p t3 = (.ok n, t4) →
      create_transfer net p t4 = (.error e, t) →
      init_run net = (.error e, t)) := by
  refine ⟨fun e t h => ?_, fun r t h => ?_, fun r t h => init_run_ok_shape net r t h,
    fun e t h => ?_, fun a c p t1 e t h1 h2 => ?_,
    fun a c p t1 b1 t2 e t h1 h2 h3 => ?_,
    fun a c p t1 b1 t2 b2 t3 e t h1 h2 h3 h4 => ?_,
    fun a c p t1 b1 t2 b2 t3 n t4 e t h1 h2 h3 h4 h5 => ?_⟩
  · simp [init_all, h]
  · simp [init_all, h]
  · simp [init_run, h]
  · simp [init_run, h1, h2]
  · simp [init_run, h1, h2, h3]
  · simp [init_run, h1, h2, h3, h4]
  · simp [init_run, h1, h2, h3, h4, h5]

/-- C8, witness: on a remote side returning only non-JSON bodies the run
fails in the first phase (a TypeError when subscripting the raw text) and
the `/init` handler reports exactly that message with status 500. -/
theorem c8_witness :
    init_all rawNet = (.obj [("error", .str "string indices must be integers")], 500) :=
  (c8_error_propagation rawNet).1 (.typeError "string indices must be integers")
    [⟨"POST", AUTHORITY_URL ++ "/api/v1/wallet/onboard", none⟩,
     ⟨"POST", CONSUMER_URL ++ "/api/v1/wallet/onboard", none⟩,
     ⟨"POST", PROVIDER_URL ++ "/api/v1/wallet/onboard", none⟩,
     ⟨"GET", AUTHORITY_URL ++ "/api/v1/wallet/did.json", none⟩] rfl
